import Mathlib

/-!
Shallow embedding of the EloWard Twitch IRC moderation bot (`src/unnamed/part_000`,
an `EloWardTwitchBot` class in JavaScript) and proofs about its message-enforcement
pipeline, rank comparator, request signing and chat-command interpreter.

JavaScript strings are modelled as `String`; absent/`null`/`undefined` values as
`Option`; JS falsiness of a string value (empty string, `null`, `undefined`) and of
a numeric value (`0`, `null`, `undefined`) is made explicit through the helpers
below.  Effectful code (HTTP calls, cache writes) is modelled by pure functions
that return the list of outbound effects they would perform.
-/

/-- Uppercasing as JS `String.prototype.toUpperCase` on ASCII data (the only data
the bot feeds it: tier/division names and badge strings). -/
def jsToUpper (s : String) : String := ⟨s.data.map Char.toUpper⟩

/-- Lowercasing as JS `String.prototype.toLowerCase` on ASCII data. -/
def jsToLower (s : String) : String := ⟨s.data.map Char.toLower⟩

/-- JS `String.prototype.startsWith`. -/
def startsWithJs (s p : String) : Bool := p.data.isPrefixOf s.data

/-- JS `String.prototype.trim` (whitespace at both ends). -/
def jsTrim (s : String) : String :=
  ⟨(s.data.dropWhile Char.isWhitespace).reverse.dropWhile Char.isWhitespace |>.reverse⟩

/-- Split a character list at every occurrence of `c` (JS `split(',')` semantics:
`''.split(',') = ['']`). -/
def splitCharList (c : Char) : List Char → List (List Char)
  | [] => [[]]
  | a :: rest =>
    let r := splitCharList c rest
    if a == c then [] :: r
    else
      match r with
      | [] => [[a]]
      | h :: t => (a :: h) :: t

/-- JS `String.prototype.split` with a single-character separator. -/
def jsSplit (s : String) (c : Char) : List String :=
  (splitCharList c s.data).map fun l => ⟨l⟩

/-- Replace the first occurrence of `pat` in a character list by `repl`
(JS `String.prototype.replace` with a string pattern). -/
def replaceFirstList (pat repl : List Char) : List Char → List Char
  | [] => if pat == [] then repl else []
  | a :: rest =>
    if pat.isPrefixOf (a :: rest) then repl ++ (a :: rest).drop pat.length
    else a :: replaceFirstList pat repl rest

/-- JS `String.prototype.replace` with a plain string pattern: first occurrence only. -/
def replaceFirstStr (s pat repl : String) : String :=
  ⟨replaceFirstList pat.data repl.data s.data⟩

/-- Remove every `"` character (JS `replace(/"/g, '')`). -/
def stripQuotes (s : String) : String := ⟨s.data.filter fun c => c != '"'⟩

/-- JS truthiness of an optional string: `undefined`/`null`/`''` are falsy. -/
def strTruthy : Option String → Bool
  | none => false
  | some s => !(s == "")

/-- JS `a || d` for an optional string `a`: the default wins when `a` is absent or empty. -/
def jsOrStr (v : Option String) (d : String) : String :=
  match v with
  | none => d
  | some s => if s == "" then d else s

/-- JS `a || d` for an optional number `a`: the default wins when `a` is absent or `0`. -/
def jsOrInt (v : Option Int) (d : Int) : Int :=
  match v with
  | none => d
  | some n => if n == 0 then d else n

/-! ## Rank comparison logic (source: `getRankValue`, `meetsMinimumRank`) -/

/-- Tier weight table of `getRankValue` (`part_000:181-192`); `none` for a string
absent from the table. -/
def tierValues : String → Option Int
  | "IRON" => some 0
  | "BRONZE" => some 100
  | "SILVER" => some 200
  | "GOLD" => some 300
  | "PLATINUM" => some 400
  | "EMERALD" => some 500
  | "DIAMOND" => some 600
  | "MASTER" => some 700
  | "GRANDMASTER" => some 800
  | "CHALLENGER" => some 900
  | _ => none

/-- Division weight table of `getRankValue` (`part_000:194-199`). -/
def divisionValues : String → Option Int
  | "IV" => some 0
  | "III" => some 25
  | "II" => some 50
  | "I" => some 75
  | _ => none

/-- `getRankValue(tier, division)` (`part_000:180-209`): `-1` for an unknown or
absent tier, the bare tier weight for MASTER+ (≥ 700), tier + division weight
otherwise (unknown or absent division counts 0). -/
def getRankValue (tier division : Option String) : Int :=
  let tierValue : Int :=
    match tier with
    | none => -1
    | some t => (tierValues (jsToUpper t)).getD (-1)
  if tierValue == -1 then -1
  else if tierValue ≥ 700 then tierValue
  else
    let divisionValue : Int :=
      match division with
      | none => 0
      | some d => (divisionValues (jsToUpper d)).getD 0
    tierValue + divisionValue

/-- `meetsMinimumRank(userTier, userDivision, minTier, minDivision)`
(`part_000:212-220`): fail-open `true` when either rank value is `-1`, otherwise
`userValue >= minValue`. -/
def meetsMinimumRank (userTier userDivision minTier minDivision : Option String) : Bool :=
  let userValue := getRankValue userTier userDivision
  let minValue := getRankValue minTier minDivision
  if userValue == -1 || minValue == -1 then true
  else decide (userValue ≥ minValue)

/-! ## Division normalization (source: `normalizeDivision`) -/

/-- The `divisionMap` literal of `normalizeDivision` (`part_000:743-746`). -/
def divisionMap : String → Option String
  | "1" => some "I"
  | "2" => some "II"
  | "3" => some "III"
  | "4" => some "IV"
  | "I" => some "I"
  | "II" => some "II"
  | "III" => some "III"
  | "IV" => some "IV"
  | _ => none

/-- `normalizeDivision(division)` (`part_000:742-748`):
`divisionMap[division.toUpperCase()] || division.toUpperCase()` (all map values are
non-empty, so `||` is exactly `getD`). -/
def normalizeDivision (division : String) : String :=
  (divisionMap (jsToUpper division)).getD (jsToUpper division)

/-! ## Roles and exemptions (source: `isSuperAdmin`, `parseBadges`, `getUserRoles`,
`isUserEnforcementExempt`, `isUserCommandPrivileged`) -/

/-- The hard-coded super-admin whitelist (`part_000:30`). -/
def superAdmins : List String := ["yomata1"]

/-- `isSuperAdmin(login)` (`part_000:784-786`): case-insensitive membership in the
super-admin set. -/
def isSuperAdmin (login : String) : Bool := superAdmins.contains (jsToLower login)

/-- A Twitch IRC tag value: the source compares tags both against the string `'1'`
and the number `1`, so both shapes are modelled. -/
inductive TagV where
  | str (s : String)
  | num (n : Int)
deriving DecidableEq, Repr

/-- The message tags consulted by `getUserRoles` (`part_000:797-828`):
`badges`, `mod`, `subscriber`, `vip`, `user-type`. -/
structure Tags where
  badges : Option String := none
  mod : Option TagV := none
  subscriber : Option TagV := none
  vip : Option TagV := none
  userType : Option TagV := none
deriving DecidableEq, Repr

/-- An inbound IRC `PRIVMSG` event as consumed by `handleMessage`
(`part_000:397-401`): author nick, `#channel` target, message text and tags. -/
structure ChatEvent where
  nick : String
  target : String
  message : String
  tags : Tags := {}
deriving DecidableEq, Repr

/-- `parseBadges(badgesStr)` (`part_000:788-795`): split on `,`, trim, lowercase,
drop empties. (The source wraps the result in a `Set`, used only for iteration;
a list is an equivalent model.) -/
def parseBadges (badgesStr : Option String) : List String :=
  ((jsSplit (badgesStr.getD "") ',').map fun s => jsToLower (jsTrim s)).filter
    fun s => !(s == "")

/-- The role record returned by `getUserRoles`. -/
structure Roles where
  isBroadcaster : Bool
  isModerator : Bool
  isSubscriber : Bool
  isVip : Bool
deriving DecidableEq, Repr

/-- `getUserRoles(event, channelLogin)` (`part_000:797-829`): badge prefixes,
nick = channel for broadcaster, and the `mod`/`subscriber`/`vip`/`user-type`
tag fallbacks (each compared against `'1'` and `1`; `user-type` against `'mod'`). -/
def getUserRoles (event : ChatEvent) (channelLogin : String) : Roles :=
  let badges := parseBadges event.tags.badges
  let nick := jsToLower event.nick
  let chan := jsToLower channelLogin
  let isBroadcaster :=
    badges.any (fun b => startsWithJs b "broadcaster/") || nick == chan
  let isModerator :=
    badges.any (fun b => startsWithJs b "moderator/") ||
    event.tags.mod == some (.str "1") ||
    event.tags.mod == some (.num 1) ||
    event.tags.userType == some (.str "mod")
  let isSubscriber :=
    badges.any (fun b => startsWithJs b "subscriber/") ||
    badges.any (fun b => startsWithJs b "founder/") ||
    event.tags.subscriber == some (.str "1") ||
    event.tags.subscriber == some (.num 1)
  let isVip :=
    badges.any (fun b => startsWithJs b "vip/") ||
    event.tags.vip == some (.str "1") ||
    event.tags.vip == some (.num 1)
  { isBroadcaster := isBroadcaster, isModerator := isModerator,
    isSubscriber := isSubscriber, isVip := isVip }

/-- `isUserEnforcementExempt(event, channelLogin)` (`part_000:832-838`):
super-admin, broadcaster, moderator or subscriber. -/
def isUserEnforcementExempt (event : ChatEvent) (channelLogin : String) : Bool :=
  let nick := jsToLower event.nick
  if isSuperAdmin nick then true
  else
    let r := getUserRoles event channelLogin
    r.isBroadcaster || r.isModerator || r.isSubscriber

/-- `isUserCommandPrivileged(event, channelLogin)` (`part_000:841-847`):
super-admin, broadcaster or moderator. -/
def isUserCommandPrivileged (event : ChatEvent) (channelLogin : String) : Bool :=
  let nick := jsToLower event.nick
  if isSuperAdmin nick then true
  else
    let r := getUserRoles event channelLogin
    r.isBroadcaster || r.isModerator

/-! ## Channel configuration and rank records -/

/-- The `rank_data` payload of a `/rank:get` response (`part_000:537-541`). -/
structure RankData where
  rank_tier : Option String := none
  rank_division : Option String := none
deriving DecidableEq, Repr

/-- The rank-result shape used by `shouldTimeoutUser` and the rank cache
(`part_000:159-177`, `449-462`). -/
structure RankResult where
  hasRank : Bool
  rankData : Option RankData := none
deriving DecidableEq, Repr

/-- A channel configuration record as returned by `/bot/config-get` and consumed
by `shouldTimeoutUser`, `executeTimeout` and `buildTimeoutReason`. -/
structure ChannelConfig where
  bot_enabled : Bool := false
  enforcement_mode : Option String := none
  min_rank_tier : Option String := none
  min_rank_division : Option String := none
  timeout_seconds : Option Int := none
  reason_has_rank : Option String := none
  reason_min_rank : Option String := none
deriving DecidableEq, Repr

/-- `shouldTimeoutUser(rankResult, config)` (`part_000:559-596`): disabled bot
never times out; `has_rank` mode times out exactly the unranked; `min_rank` mode
times out the unranked, allows when no minimum tier is configured or rank data /
tier is missing, and otherwise negates `meetsMinimumRank`; unknown modes allow. -/
def shouldTimeoutUser (rankResult : RankResult) (config : ChannelConfig) : Bool :=
  if !config.bot_enabled then false
  else
    let mode := jsOrStr config.enforcement_mode "has_rank"
    if mode == "has_rank" then !rankResult.hasRank
    else if mode == "min_rank" then
      if !rankResult.hasRank then true
      else if !(strTruthy config.min_rank_tier) then false
      else
        match rankResult.rankData with
        | none => false
        | some rd =>
          if !(strTruthy rd.rank_tier) then false
          else !(meetsMinimumRank rd.rank_tier rd.rank_division
                  config.min_rank_tier config.min_rank_division)
    else false

/-! ## Timeout reason rendering (source: `buildTimeoutReason`) -/

/-- The `noDivTiers` set of `buildTimeoutReason` (`part_000:767`). -/
def noDivTiers : List String := ["MASTER", "GRANDMASTER", "CHALLENGER"]

/-- `buildTimeoutReason(config, userLogin)` (`part_000:751-781`): pick the
per-mode template (`reason_min_rank` for `min_rank`, else `reason_has_rank`);
when the template is absent or empty, log a configuration error and return the
hard-coded string `'Configuration error - please contact the streamer'`;
otherwise substitute the first occurrence of each placeholder. -/
def buildTimeoutReason (config : ChannelConfig) (userLogin : String) : String :=
  let mode := jsToLower (jsOrStr config.enforcement_mode "has_rank")
  let duration := jsOrInt config.timeout_seconds 30
  let template := if mode == "min_rank" then config.reason_min_rank
                  else config.reason_has_rank
  if !(strTruthy template) then "Configuration error - please contact the streamer"
  else
    let tpl := template.getD ""
    let minTier := jsToUpper (config.min_rank_tier.getD "")
    let div := jsToUpper (config.min_rank_division.getD "")
    let divisionText :=
      if !(minTier == "") && !(noDivTiers.contains minTier) && !(div == "") then
        " " ++ div
      else ""
    replaceFirstStr
      (replaceFirstStr
        (replaceFirstStr
          (replaceFirstStr
            (replaceFirstStr
              (replaceFirstStr
                (replaceFirstStr tpl "{seconds}" (toString duration))
                "{site}" "https://eloward.com")
              "{user}" userLogin)
            "{tier}" minTier)
          "{division}" divisionText)
        "[tier]" minTier)
      "[division]" divisionText

/-! ## Moderation executor (source: `executeTimeout`) -/

/-- The three numeric IDs `executeTimeout` resolves via `getTwitchUserInfo`
(`part_000:617-625`): target user, broadcaster, and the bot itself. -/
structure TimeoutIds where
  userId : String
  broadcasterId : String
  botUserId : String
deriving DecidableEq, Repr

/-- Environment of a single `executeTimeout` run: the outcome of the
`getTwitchUserInfo` lookup (`none` models a failed lookup or any of the three
logins missing from the response, `part_000:617-621`) and the answer of the
best-effort `isModeratorViaHelix` recheck (`part_000:628`). -/
structure ModEnv where
  userInfo : Option TimeoutIds := none
  helixSaysMod : Bool := false
deriving DecidableEq, Repr

/-- An outbound effect of the message pipeline. -/
inductive Effect where
  /-- `fetchChannelConfig` HTTP call (`part_000:427`). -/
  | configFetch
  /-- `fetchUserRank` HTTP call (`part_000:455`). -/
  | rankFetch
  /-- `setCachedRank(user, hasRank, rankData)` cache write (`part_000:456`). -/
  | rankCacheSet (user : String) (hasRank : Bool) (rankData : Option RankData)
  /-- POST to the Helix moderation/bans endpoint (`part_000:636-650`). -/
  | banRequest (broadcasterId moderatorId userId : String) (duration : Int) (reason : String)
  /-- Dispatch to `handleChatCommand` (`part_000:409`); that handler issues chat
  replies and config updates but never a moderation call. -/
  | commandHandled
  /-- A chat reply via `sendChatMessage`. -/
  | chatReply (msg : String)
deriving DecidableEq, Repr

/-- Whether an effect is a moderation (ban/timeout) HTTP call. -/
def Effect.isBanRequest : Effect → Bool
  | .banRequest _ _ _ _ _ => true
  | _ => false

/-- Whether an effect is a rank-lookup HTTP call. -/
def Effect.isRankFetch : Effect → Bool
  | .rankFetch => true
  | _ => false

/-- `executeTimeout(channelLogin, userLogin, config, event)` (`part_000:599-661`)
as the list of ban requests it posts: early return for super-admins and exempt
authors, abort when the three-way user-ID lookup fails or Helix reports the
target as a moderator, otherwise one POST to the bans endpoint with
`duration = config.timeout_seconds || 30` and the rendered reason. -/
def executeTimeout (channelLogin userLogin : String) (config : ChannelConfig)
    (event : ChatEvent) (env : ModEnv) : List Effect :=
  if isSuperAdmin userLogin then []
  else if isUserEnforcementExempt event channelLogin then []
  else
    let duration := jsOrInt config.timeout_seconds 30
    let reason := buildTimeoutReason config userLogin
    match env.userInfo with
    | none => []
    | some ids =>
      if env.helixSaysMod then []
      else [Effect.banRequest ids.broadcasterId ids.botUserId ids.userId duration reason]

/-! ## Message pipeline (source: `handleMessage`, `fetchUserRank`, `setCachedRank`) -/

/-- Transport-level outcome of the `/rank:get` HTTP call inside `fetchUserRank`
(`part_000:524-555`): a 2xx response carrying `rank_data` (or nothing), a non-2xx
response, or a thrown network error / timeout. -/
inductive RankFetchOutcome where
  | ok (rankData : Option RankData)
  | httpErr
  | transportErr
deriving DecidableEq, Repr

/-- `fetchUserRank` result construction (`part_000:536-554`): 2xx →
`{hasRank: true, rankData: data.rank_data || null}`; non-2xx →
`{hasRank: false, rankData: null}`; thrown error → fail-open
`{hasRank: true, rankData: null}`. -/
def fetchUserRank : RankFetchOutcome → RankResult
  | .ok rd => { hasRank := true, rankData := rd }
  | .httpErr => { hasRank := false, rankData := none }
  | .transportErr => { hasRank := true, rankData := none }

/-- TTL chosen by `setCachedRank` (`part_000:171-177`): 60 s for `hasRank = true`,
30 s otherwise. -/
def rankCacheTtlMs (hasRank : Bool) : Nat := if hasRank then 60000 else 30000

/-- Environment of a single `handleMessage` run: the local cache lookups and the
outcomes of the HTTP calls the run would make.  `cachedConfig = none` models a
config-cache miss (including a cached `null`, which `getCachedConfig` also
reports as `null` and which is refetched); `cachedRank = none` models a rank
cache miss or an expired entry. -/
structure BotEnv where
  cachedConfig : Option ChannelConfig := none
  configFetch : Option ChannelConfig := none
  cachedRank : Option RankResult := none
  rankFetch : RankFetchOutcome := .transportErr
  modEnv : ModEnv := {}
deriving DecidableEq, Repr

/-- `handleMessage(event, connection)` (`part_000:397-491`) as the list of effects
of one run.  `onThisConn` is the value of `isConnectionForChannel`; command
messages are dispatched to `handleChatCommand` / the `!commands` reply; the
policy path is: config (cache or fetch) → `bot_enabled` gate → exemption gate →
rank (cache or fetch, the fetched record being cached unconditionally) →
`shouldTimeoutUser` → `executeTimeout`. -/
def handleMessage (event : ChatEvent) (onThisConn : Bool) (env : BotEnv) : List Effect :=
  let channelLogin := replaceFirstStr event.target "#" ""
  let userLogin := event.nick
  let message := event.message
  if startsWithJs message "!eloward" && onThisConn then [Effect.commandHandled]
  else if message == "!commands" && onThisConn then
    [Effect.chatReply ("@" ++ userLogin ++
      " Full command list: https://www.eloward.com/setup/bot#commands-reference")]
  else
    let configAndEff : Option ChannelConfig × List Effect :=
      match env.cachedConfig with
      | some c => (some c, [])
      | none => (env.configFetch, [Effect.configFetch])
    match configAndEff with
    | (configOpt, eff1) =>
      match configOpt with
      | none => eff1
      | some config =>
        if !config.bot_enabled then eff1
        else if isUserEnforcementExempt event channelLogin then eff1
        else
          let rankAndEff : RankResult × List Effect :=
            match env.cachedRank with
            | some r => (r, [])
            | none =>
              let fr := fetchUserRank env.rankFetch
              (fr, [Effect.rankFetch, Effect.rankCacheSet userLogin fr.hasRank fr.rankData])
          match rankAndEff with
          | (rankResult, eff2) =>
            if shouldTimeoutUser rankResult config then
              eff1 ++ eff2 ++ executeTimeout channelLogin userLogin config event env.modEnv
            else eff1 ++ eff2

/-! ## Request signing (source: `signRequest`) -/

/-- The headers produced by `signRequest` (`part_000:87-91`). -/
structure SignedHeaders where
  xHmacSignature : String
  xTimestamp : String
  contentType : String
deriving DecidableEq, Repr

/-- `signRequest(method, path, body)` (`part_000:80-92`).  `hmacSha256Hex` stands
for node's `crypto.createHmac('sha256', secret).update(payload).digest('hex')`,
an external library primitive, taken as a parameter; `nowMs` is `Date.now()` in
milliseconds, floored to whole seconds by `Math.floor(Date.now() / 1000)`.  The
payload is the undelimited concatenation `timestamp + method + path + (body || '')`. -/
def signRequest (hmacSha256Hex : String → String → String) (secret : String)
    (nowMs : Nat) (method path : String) (body : Option String) : SignedHeaders :=
  let timestamp := nowMs / 1000
  let payload := toString timestamp ++ method ++ path ++ body.getD ""
  { xHmacSignature := hmacSha256Hex secret payload,
    xTimestamp := toString timestamp,
    contentType := "application/json" }

/-! ## Command interpreter, `set` subcommands (source: `handleSetCommand`) -/

/-- A `fields` object sent to `/bot/config-update` by `updateChannelConfig`
(`part_000:1103-1110`): the subset of columns the command changes. -/
structure UpdateFields where
  bot_enabled : Option Bool := none
  enforcement_mode : Option String := none
  timeout_seconds : Option Int := none
  min_rank_tier : Option String := none
  min_rank_division : Option String := none
  reason_has_rank : Option String := none
  reason_min_rank : Option String := none
deriving DecidableEq, Repr

/-- An effect of the command interpreter: a signed `config-update` call or a chat
reply. -/
inductive CmdEffect where
  | update (fields : UpdateFields)
  | reply (msg : String)
deriving DecidableEq, Repr

/-- Whether a command effect is a `config-update` call. -/
def CmdEffect.isUpdate : CmdEffect → Bool
  | .update _ => true
  | _ => false

/-- The `'timeout'` branch of `handleSetCommand` (`part_000:1015-1023`).  The JS
guard `parts[3] && !isNaN(parts[3])` and `parseInt(parts[3])` are host-library
numeric string parsing; the model takes their outcome: `none` when the argument
is missing or not numeric, `some n` for the parsed integer.  A numeric argument
is clamped by `Math.max(1, Math.min(1209600, n))` and persisted. -/
def handleSetTimeout : Option Int → List CmdEffect
  | none => [.reply "Correct usage: !eloward set timeout [1-1209600]"]
  | some n =>
    let seconds := max 1 (min 1209600 n)
    [.update { timeout_seconds := some seconds },
     .reply ("Timeout duration set to " ++ toString seconds ++ " seconds")]

/-- The `validTiers` list of the `'min_rank'` branch (`part_000:1032`). -/
def validTiers : List String :=
  ["IRON", "BRONZE", "SILVER", "GOLD", "PLATINUM", "EMERALD", "DIAMOND",
   "MASTER", "GRANDMASTER", "CHALLENGER"]

/-- The `noDivisionTiers` list of the `'min_rank'` branch (`part_000:1038`). -/
def noDivisionTiers : List String := ["MASTER", "GRANDMASTER", "CHALLENGER"]

/-- The `validDivisions` list of the `'min_rank'` branch (`part_000:1055`). -/
def validDivisions : List String := ["I", "II", "III", "IV"]

/-- The `'min_rank'` branch of `handleSetCommand` (`part_000:1026-1071`), taking
`parts[3]` and `parts[4]`.  A missing or empty (JS-falsy) `parts[3]` yields the
usage reply; the tier is uppercased and validated; MASTER+ tiers ignore the
division argument and persist division `I`; other tiers require a division,
normalized by `normalizeDivision` and validated against `validDivisions`. -/
def handleSetMinRank (p3 p4 : Option String) : List CmdEffect :=
  if !(strTruthy p3) then [.reply "Usage: !eloward set min_rank [tier] [division]"]
  else
    let tier := jsToUpper (p3.getD "")
    let divisionInput : Option String :=
      if strTruthy p4 then some (normalizeDivision (p4.getD "")) else none
    if !(validTiers.contains tier) then
      [.reply ("Invalid tier. Valid tiers: IRON, BRONZE, SILVER, GOLD, PLATINUM, " ++
        "EMERALD, DIAMOND, MASTER, GRANDMASTER, CHALLENGER")]
    else if noDivisionTiers.contains tier then
      [.update { min_rank_tier := some tier, min_rank_division := some "I" },
       .reply ("Minimum rank set to " ++ tier)]
    else
      match divisionInput with
      | none =>
        [.reply (tier ++ " requires a division. Usage: !eloward set min_rank " ++
          jsToLower tier ++ " [1-4]")]
      | some d =>
        if !(validDivisions.contains d) then
          [.reply "Invalid division. Use: I, II, III, IV (or 1, 2, 3, 4)"]
        else
          [.update { min_rank_tier := some tier, min_rank_division := some d },
           .reply ("Minimum rank set to " ++ tier ++ " " ++ d)]

/-- The `'reason'` branch of `handleSetCommand` (`part_000:1073-1095`), taking the
joined tail `parts.slice(3).join(' ')` (present iff `parts.length > 3`) and the
current config fetched by `getCurrentConfig`.  Quotes are stripped, the result
trimmed; an empty result is rejected; otherwise the mode-specific reason column
of the currently active mode is updated. -/
def handleSetReason (joinedTail : Option String) (currentConfig : Option ChannelConfig) :
    List CmdEffect :=
  match joinedTail with
  | none =>
    [.reply ("Usage: !eloward set reason [your custom message] " ++
      "(updates current mode's timeout message)")]
  | some raw =>
    let reason := jsTrim (stripQuotes raw)
    if reason == "" then [.reply "Please provide a reason message"]
    else
      let mode := jsOrStr (currentConfig.bind fun c => c.enforcement_mode) "has_rank"
      if mode == "min_rank" then
        [.update { reason_min_rank := some reason },
         .reply ("Timeout reason for min_rank mode set to: \"" ++ reason ++ "\"")]
      else
        [.update { reason_has_rank := some reason },
         .reply ("Timeout reason for has_rank mode set to: \"" ++ reason ++ "\"")]

/-- `handleSetCommand(channelLogin, userLogin, parts)` (`part_000:1011-1100`):
dispatch on `parts[2]?.toLowerCase()`.  `parsedTimeout` carries the outcome of
the JS numeric parse of `parts[3]` for the `'timeout'` branch (see
`handleSetTimeout`); `currentConfig` the `getCurrentConfig` result for the
`'reason'` branch. -/
def handleSetCommand (parts : List String) (parsedTimeout : Option Int)
    (currentConfig : Option ChannelConfig) : List CmdEffect :=
  match (parts.get? 2).map jsToLower with
  | some "timeout" => handleSetTimeout parsedTimeout
  | some "min_rank" => handleSetMinRank (parts.get? 3) (parts.get? 4)
  | some "reason" =>
    handleSetReason
      (if parts.length > 3 then some (String.intercalate " " (parts.drop 3)) else none)
      currentConfig
  | _ => [.reply "Unknown subcommand. Use !eloward help for details"]

/-! ## Spec-side rank model (for refinement claims; modelled from the spec's
words, to be compared with the source-derived definitions above) -/

/-- The ten valid tiers, as an enumerated type. -/
inductive TierT where
  | iron | bronze | silver | gold | platinum | emerald | diamond
  | master | grandmaster | challenger
deriving DecidableEq, Fintype, Repr

/-- The four valid divisions (IV..I), as an enumerated type. -/
inductive DivT where
  | four | three | two | one
deriving DecidableEq, Fintype, Repr

/-- Canonical uppercase string of a tier. -/
def TierT.str : TierT → String
  | .iron => "IRON"
  | .bronze => "BRONZE"
  | .silver => "SILVER"
  | .gold => "GOLD"
  | .platinum => "PLATINUM"
  | .emerald => "EMERALD"
  | .diamond => "DIAMOND"
  | .master => "MASTER"
  | .grandmaster => "GRANDMASTER"
  | .challenger => "CHALLENGER"

/-- Canonical roman-numeral string of a division. -/
def DivT.str : DivT → String
  | .four => "IV"
  | .three => "III"
  | .two => "II"
  | .one => "I"

/-- Modelled from the spec (§4.6): tier weights IRON=0, BRONZE=100, SILVER=200,
GOLD=300, PLATINUM=400, EMERALD=500, DIAMOND=600, MASTER=700, GRANDMASTER=800,
CHALLENGER=900. -/
def tierWeightSpec : TierT → Nat
  | .iron => 0
  | .bronze => 100
  | .silver => 200
  | .gold => 300
  | .platinum => 400
  | .emerald => 500
  | .diamond => 600
  | .master => 700
  | .grandmaster => 800
  | .challenger => 900

/-- Modelled from the spec (§4.6): division weights IV=0, III=25, II=50, I=75. -/
def divWeightSpec : DivT → Nat
  | .four => 0
  | .three => 25
  | .two => 50
  | .one => 75

/-- Whether a tier is MASTER or above (division contributes 0 there). -/
def TierT.isMasterPlus : TierT → Bool
  | .master => true
  | .grandmaster => true
  | .challenger => true
  | _ => false

/-- Modelled from the spec (§4.6): `rank_value` over valid ranks — tier weight
plus division weight, the division contributing 0 for MASTER and above. -/
def rankValueSpec (t : TierT) (d : DivT) : Nat :=
  tierWeightSpec t + (if t.isMasterPlus then 0 else divWeightSpec d)

/-- Modelled from claim C9's words: the `min_rank` decision table — an unranked
user is timed out; a user is allowed when no minimum tier is configured (absent
or empty), when the rank result carries no rank data, or no tier; otherwise the
decision is the negation of `meetsMinimumRank`. -/
def minRankDecisionSpec (rr : RankResult) (cfg : ChannelConfig) : Bool :=
  if rr.hasRank = false then true
  else if cfg.min_rank_tier == none || cfg.min_rank_tier == some "" then false
  else
    match rr.rankData with
    | none => false
    | some rd =>
      match rd.rank_tier with
      | none => false
      | some t =>
        if t == "" then false
        else !(meetsMinimumRank (some t) rd.rank_division
                cfg.min_rank_tier cfg.min_rank_division)

/-! ## Theorems -/

/-- C10: `normalizeDivision` maps the numerals 1-4 to the roman forms I-IV, fixes
the roman forms, and is idempotent on all eight inputs:
`normalizeDivision (normalizeDivision x) = normalizeDivision x`. -/
theorem normalizeDivision_idempotent_on_divisions :
    (["1", "2", "3", "4", "I", "II", "III", "IV"].all fun x =>
      normalizeDivision (normalizeDivision x) == normalizeDivision x) = true ∧
    normalizeDivision "1" = "I" ∧ normalizeDivision "2" = "II" ∧
    normalizeDivision "3" = "III" ∧ normalizeDivision "4" = "IV" ∧
    normalizeDivision "I" = "I" ∧ normalizeDivision "II" = "II" ∧
    normalizeDivision "III" = "III" ∧ normalizeDivision "IV" = "IV" := by
  decide

/-- C5: `signRequest` emits `X-Timestamp` equal to the current Unix time in whole
seconds `t = ⌊nowMs / 1000⌋` and `X-HMAC-Signature` equal to the hex HMAC-SHA256
(keyed by the shared secret) of the undelimited concatenation
`t ++ method ++ path ++ body`, with `""` in place of an absent body. -/
theorem signRequest_headers_correct :
    ∀ (hmacSha256Hex : String → String → String) (secret : String) (nowMs : Nat)
      (method path : String) (body : Option String),
      (signRequest hmacSha256Hex secret nowMs method path body).xTimestamp
          = toString (nowMs / 1000) ∧
      (signRequest hmacSha256Hex secret nowMs method path body).xHmacSignature
          = hmacSha256Hex secret
              (toString (nowMs / 1000) ++ method ++ path ++ body.getD "") := by
  intro hmac s n m p b
  exact ⟨rfl, rfl⟩

/-- C6: for `!eloward set timeout N` with numeric `N`, the persisted value is
`min (max N 1) 1209600`; in particular `0` persists `1` and `2000000` persists
`1209600`.  The last conjunct ties the branch to the `handleSetCommand` dispatch. -/
theorem setTimeout_clamped :
    (∀ n : Int,
        handleSetTimeout (some n) =
          [.update { timeout_seconds := some (min (max n 1) 1209600) },
           .reply ("Timeout duration set to " ++ toString (min (max n 1) 1209600) ++
             " seconds")]) ∧
    handleSetTimeout (some 0) =
      [.update { timeout_seconds := some 1 },
       .reply "Timeout duration set to 1 seconds"] ∧
    handleSetTimeout (some 2000000) =
      [.update { timeout_seconds := some 1209600 },
       .reply "Timeout duration set to 1209600 seconds"] ∧
    (∀ (rest : List String) (pt : Option Int) (cc : Option ChannelConfig),
        handleSetCommand ("!eloward" :: "set" :: "timeout" :: rest) pt cc =
          handleSetTimeout pt) := by
  refine ⟨?_, by decide, by decide, fun rest pt cc => rfl⟩
  intro n
  have h : max 1 (min 1209600 n) = min (max n 1) 1209600 := by omega
  simp only [handleSetTimeout, h]

/-- Bridge between the source's `getRankValue` and the spec-side `rankValueSpec`
on every valid (tier, division) pair. -/
theorem getRankValue_validRank (t : TierT) (d : DivT) :
    getRankValue (some t.str) (some d.str) = (rankValueSpec t d : Int) := by
  cases t <;> cases d <;> rfl

/-- C2: over valid ranks, `meetsMinimumRank` is exactly
`rank_value(user) ≥ rank_value(min)` for the documented tier/division weights
(division contributing 0 for MASTER and above); it is reflexive on every valid
rank; the induced order is total; and an unknown tier on either side makes it
return `true` (fail-open). -/
theorem meetsMinimumRank_matches_weights :
    (∀ (ut : TierT) (ud : DivT) (mt : TierT) (md : DivT),
        meetsMinimumRank (some ut.str) (some ud.str) (some mt.str) (some md.str)
          = decide (rankValueSpec ut ud ≥ rankValueSpec mt md)) ∧
    (∀ (t : TierT) (d : DivT),
        meetsMinimumRank (some t.str) (some d.str) (some t.str) (some d.str) = true) ∧
    (∀ (a b : TierT × DivT),
        meetsMinimumRank (some a.1.str) (some a.2.str) (some b.1.str) (some b.2.str) = true ∨
        meetsMinimumRank (some b.1.str) (some b.2.str) (some a.1.str) (some a.2.str) = true) ∧
    (∀ (ut : String) (ud mt md : Option String),
        tierValues (jsToUpper ut) = none →
        meetsMinimumRank (some ut) ud mt md = true) ∧
    (∀ (ut ud : Option String) (mt : String) (md : Option String),
        tierValues (jsToUpper mt) = none →
        meetsMinimumRank ut ud (some mt) md = true) := by
  have key : ∀ (ut : TierT) (ud : DivT) (mt : TierT) (md : DivT),
      meetsMinimumRank (some ut.str) (some ud.str) (some mt.str) (some md.str)
        = decide (rankValueSpec ut ud ≥ rankValueSpec mt md) := by
    intro ut ud mt md
    simp only [meetsMinimumRank, getRankValue_validRank]
    have h1 : ((rankValueSpec ut ud : Int) == -1) = false :=
      beq_eq_false_iff_ne.mpr (by omega)
    have h2 : ((rankValueSpec mt md : Int) == -1) = false :=
      beq_eq_false_iff_ne.mpr (by omega)
    rw [h1, h2]
    simp only [Bool.or_self, Bool.false_or, if_false, Bool.false_eq_true, if_neg,
      not_false_eq_true]
    rw [decide_eq_decide]
    exact_mod_cast Iff.rfl
  refine ⟨key, ?_, ?_, ?_, ?_⟩
  · intro t d
    rw [key]
    simp
  · intro a b
    rcases le_total (rankValueSpec b.1 b.2) (rankValueSpec a.1 a.2) with h | h
    · left
      rw [key]
      simpa using h
    · right
      rw [key]
      simpa using h
  · intro ut ud mt md h
    simp [meetsMinimumRank, getRankValue, h]
  · intro ut ud mt md h
    simp [meetsMinimumRank, getRankValue, h]

/-- Witness for `meetsMinimumRank_matches_weights` at concrete ranks, with the
fail-open hypotheses discharged on the unknown tier string `"WOOD"`. -/
theorem meetsMinimumRank_matches_weights_witness :
    meetsMinimumRank (some "GOLD") (some "II") (some "SILVER") (some "I")
        = decide (rankValueSpec TierT.gold DivT.two ≥ rankValueSpec TierT.silver DivT.one) ∧
    meetsMinimumRank (some "PLATINUM") (some "IV") (some "PLATINUM") (some "IV") = true ∧
    meetsMinimumRank (some "WOOD") (some "II") (some "GOLD") (some "I") = true ∧
    meetsMinimumRank (some "GOLD") (some "I") (some "WOOD") none = true :=
  ⟨meetsMinimumRank_matches_weights.1 TierT.gold DivT.two TierT.silver DivT.one,
   meetsMinimumRank_matches_weights.2.1 TierT.platinum DivT.four,
   meetsMinimumRank_matches_weights.2.2.2.1 "WOOD" (some "II") (some "GOLD") (some "I")
     (by decide),
   meetsMinimumRank_matches_weights.2.2.2.2 (some "GOLD") (some "I") "WOOD" none
     (by decide)⟩

/-- C7: for `!eloward set min_rank TIER [DIVISION]` where TIER uppercases to
MASTER, GRANDMASTER or CHALLENGER, any division argument is ignored and the
persisted fields are `min_rank_tier = TIER` (uppercased) with
`min_rank_division = "I"`; in particular `set min_rank master iv` persists
(MASTER, I).  The last conjunct ties the branch to the `handleSetCommand`
dispatch. -/
theorem setMinRank_masterPlus_persists_division_I :
    (∀ (t : String) (p4 : Option String),
        (jsToUpper t = "MASTER" ∨ jsToUpper t = "GRANDMASTER" ∨
         jsToUpper t = "CHALLENGER") →
        handleSetMinRank (some t) p4 =
          [.update { min_rank_tier := some (jsToUpper t), min_rank_division := some "I" },
           .reply ("Minimum rank set to " ++ jsToUpper t)]) ∧
    handleSetMinRank (some "master") (some "iv") =
      [.update { min_rank_tier := some "MASTER", min_rank_division := some "I" },
       .reply "Minimum rank set to MASTER"] ∧
    (∀ (rest : List String) (pt : Option Int) (cc : Option ChannelConfig),
        handleSetCommand ("!eloward" :: "set" :: "min_rank" :: rest) pt cc =
          handleSetMinRank (rest.get? 0) (rest.get? 1)) := by
  refine ⟨?_, by decide, fun rest pt cc => rfl⟩
  intro t p4 h
  have ht : (t == "") = false := by
    refine beq_eq_false_iff_ne.mpr ?_
    intro he
    subst he
    rcases h with h | h | h <;> simp [jsToUpper] at h
  rcases h with h | h | h <;>
    simp [handleSetMinRank, strTruthy, ht, h, validTiers, noDivisionTiers]

/-- Witness for `setMinRank_masterPlus_persists_division_I`: the MASTER+ clause
applied at `TIER = "grandmaster"` with a supplied (ignored) division `"2"`. -/
theorem setMinRank_masterPlus_persists_division_I_witness :
    handleSetMinRank (some "grandmaster") (some "2") =
      [.update { min_rank_tier := some "GRANDMASTER", min_rank_division := some "I" },
       .reply "Minimum rank set to GRANDMASTER"] :=
  setMinRank_masterPlus_persists_division_I.1 "grandmaster" (some "2")
    (Or.inr (Or.inl (by decide)))

/-- C8: for `!eloward set min_rank TIER` with a valid tier below MASTER and no
division argument, the interpreter replies with a usage message and issues no
`config-update` call. -/
theorem setMinRank_below_master_requires_division :
    ∀ t : String,
      validTiers.contains (jsToUpper t) = true →
      noDivisionTiers.contains (jsToUpper t) = false →
      handleSetMinRank (some t) none =
        [.reply (jsToUpper t ++ " requires a division. Usage: !eloward set min_rank " ++
          jsToLower (jsToUpper t) ++ " [1-4]")] ∧
      ((handleSetMinRank (some t) none).all fun e => !e.isUpdate) = true := by
  intro t hv hnd
  have ht : (t == "") = false := by
    refine beq_eq_false_iff_ne.mpr ?_
    intro he
    subst he
    simp [jsToUpper, validTiers, List.contains] at hv
  have hv' : jsToUpper t ∈ validTiers := by simpa using hv
  have hnd' : jsToUpper t ∉ noDivisionTiers := by simpa using hnd
  have hres : handleSetMinRank (some t) none =
      [.reply (jsToUpper t ++ " requires a division. Usage: !eloward set min_rank " ++
        jsToLower (jsToUpper t) ++ " [1-4]")] := by
    simp [handleSetMinRank, strTruthy, ht, hv', hnd']
  exact ⟨hres, by rw [hres]; rfl⟩

/-- Witness for `setMinRank_below_master_requires_division` at `TIER = "bronze"`. -/
theorem setMinRank_below_master_requires_division_witness :
    handleSetMinRank (some "bronze") none =
      [.reply "BRONZE requires a division. Usage: !eloward set min_rank bronze [1-4]"] ∧
    ((handleSetMinRank (some "bronze") none).all fun e => !e.isUpdate) = true :=
  setMinRank_below_master_requires_division "bronze" (by decide) (by decide)

/-- C9: with the bot enabled and `enforcement_mode = "min_rank"`,
`shouldTimeoutUser` computes exactly the claim's decision table
(`minRankDecisionSpec`): an unranked user is timed out; a missing minimum tier,
missing rank data or missing user tier allows; otherwise the decision is the
negation of `meetsMinimumRank`. -/
theorem shouldTimeoutUser_minRank_table :
    ∀ (rr : RankResult) (cfg : ChannelConfig),
      cfg.bot_enabled = true →
      cfg.enforcement_mode = some "min_rank" →
      shouldTimeoutUser rr cfg = minRankDecisionSpec rr cfg := by
  intro rr cfg h1 h2
  rcases rr with ⟨hasRank, rankData⟩
  simp only [shouldTimeoutUser, minRankDecisionSpec, h1, h2, jsOrStr]
  cases hasRank
  · simp
  · simp only [Bool.not_true, Bool.false_eq_true, if_false, reduceIte]
    cases hmt : cfg.min_rank_tier with
    | none => simp [strTruthy]
    | some s =>
      by_cases hs : s = ""
      · subst hs
        simp [strTruthy]
      · have hs' : (s == "") = false := beq_eq_false_iff_ne.mpr hs
        simp only [strTruthy, hs', Bool.not_false, if_true, Option.some.injEq,
          Bool.or_eq_true, beq_iff_eq, reduceCtorEq, false_or, if_neg, hs]
        cases rankData with
        | none => simp [hs']
        | some rd =>
          cases hrt : rd.rank_tier with
          | none => simp [strTruthy, hs', hrt]
          | some t =>
            by_cases htt : t = ""
            · subst htt
              simp [strTruthy, hs', hrt]
            · have htt' : (t == "") = false := beq_eq_false_iff_ne.mpr htt
              simp [strTruthy, hs', htt', htt, hrt]

/-- Witness for `shouldTimeoutUser_minRank_table`: a GOLD II user against a
SILVER I minimum in `min_rank` mode. -/
theorem shouldTimeoutUser_minRank_table_witness :
    shouldTimeoutUser
        { hasRank := true,
          rankData := some { rank_tier := some "GOLD", rank_division := some "II" } }
        { bot_enabled := true, enforcement_mode := some "min_rank",
          min_rank_tier := some "SILVER", min_rank_division := some "I" } =
      minRankDecisionSpec
        { hasRank := true,
          rankData := some { rank_tier := some "GOLD", rank_division := some "II" } }
        { bot_enabled := true, enforcement_mode := some "min_rank",
          min_rank_tier := some "SILVER", min_rank_division := some "I" } :=
  shouldTimeoutUser_minRank_table _ _ rfl rfl

/-- C1: an enforcement-exempt author (broadcaster, moderator, subscriber or
super-admin) never triggers a moderation call: `handleMessage` emits neither a
ban request nor a rank lookup for such a message (the dispatcher returns before
the rank check), and `executeTimeout` independently returns no ban request for
an exempt author, or for a super-admin target. -/
theorem exempt_author_no_moderation :
    (∀ (event : ChatEvent) (onThisConn : Bool) (env : BotEnv),
        isUserEnforcementExempt event (replaceFirstStr event.target "#" "") = true →
        ((handleMessage event onThisConn env).all
          fun e => !e.isBanRequest && !e.isRankFetch) = true) ∧
    (∀ (channelLogin userLogin : String) (config : ChannelConfig) (event : ChatEvent)
        (menv : ModEnv),
        isUserEnforcementExempt event channelLogin = true →
        executeTimeout channelLogin userLogin config event menv = []) ∧
    (∀ (channelLogin userLogin : String) (config : ChannelConfig) (event : ChatEvent)
        (menv : ModEnv),
        isSuperAdmin userLogin = true →
        executeTimeout channelLogin userLogin config event menv = []) := by
  refine ⟨?_, ?_, ?_⟩
  · intro ev b env hex
    rcases env with ⟨cc, cf, cr, rf, me⟩
    by_cases h1 : (startsWithJs ev.message "!eloward" && b) = true
    · simp [handleMessage, h1, Effect.isBanRequest, Effect.isRankFetch]
    · by_cases h2 : ((ev.message == "!commands") && b) = true
      · simp [handleMessage, h1, h2, Effect.isBanRequest, Effect.isRankFetch]
      · cases cc with
        | some c => simp [handleMessage, h1, h2, hex, Effect.isBanRequest, Effect.isRankFetch]
        | none =>
          cases cf with
          | none => simp [handleMessage, h1, h2, Effect.isBanRequest, Effect.isRankFetch]
          | some c => simp [handleMessage, h1, h2, hex, Effect.isBanRequest, Effect.isRankFetch]
  · intro chan user cfg ev menv hex
    unfold executeTimeout
    simp [hex]
  · intro chan user cfg ev menv hsa
    unfold executeTimeout
    simp [hsa]

/-- Witness for `exempt_author_no_moderation`: a super-admin author (exempt), an
event with a moderator badge (exempt in `executeTimeout`), and a super-admin
timeout target. -/
theorem exempt_author_no_moderation_witness :
    ((handleMessage { nick := "yomata1", target := "#chanx", message := "hello" } true
        { cachedConfig := some { bot_enabled := true }, configFetch := none,
          cachedRank := none, rankFetch := .httpErr, modEnv := {} }).all
      fun e => !e.isBanRequest && !e.isRankFetch) = true ∧
    executeTimeout "chanx" "alice" {}
        { nick := "alice", target := "#chanx", message := "hi",
          tags := { badges := some "moderator/1" } } {} = [] ∧
    executeTimeout "chanx" "yomata1" {}
        { nick := "bob", target := "#chanx", message := "hi" } {} = [] :=
  ⟨exempt_author_no_moderation.1 _ _ _ (by decide),
   exempt_author_no_moderation.2.1 _ _ _ _ _ (by decide),
   exempt_author_no_moderation.2.2 _ _ _ _ _ (by decide)⟩

/-- The fail-open synthetic record `{hasRank: true, rankData: null}` never makes
`shouldTimeoutUser` time a user out, under any channel configuration. -/
theorem shouldTimeoutUser_failopen_record (cfg : ChannelConfig) :
    shouldTimeoutUser { hasRank := true, rankData := none } cfg = false := by
  simp only [shouldTimeoutUser]
  split
  · rfl
  · split
    · rfl
    · split
      · simp
      · rfl

/-- C3 counterexample: on a rank-get transport failure, `handleMessage` caches
the synthetic fail-open record — the run for user `dan` emits
`setCachedRank("dan", true, null)` (a 60 s positive entry), so the next message
within the TTL does not retry the lookup, contrary to the claim that no
rank-cache entry is created. -/
theorem rank_transport_failure_creates_cache_entry :
    Effect.rankCacheSet "dan" true none ∈
      handleMessage { nick := "dan", target := "#carol", message := "hello all" } true
        { cachedConfig := some { bot_enabled := true, enforcement_mode := some "has_rank" },
          configFetch := none, cachedRank := none,
          rankFetch := .transportErr, modEnv := {} } ∧
    rankCacheTtlMs true = 60000 := by
  constructor
  · decide
  · rfl

/-- C3 (amended): a rank-get transport failure yields the fail-open record
`{hasRank: true, tier: none}`, no moderation call is issued for the message, but
the record is cached like a successful lookup (`setCachedRank`, 60 s positive
TTL), so the next message inside the TTL does not retry the lookup. -/
theorem rank_transport_failure_fail_open :
    ∀ (event : ChatEvent) (env : BotEnv) (cfg : ChannelConfig) (onThisConn : Bool),
      env.cachedConfig = some cfg →
      cfg.bot_enabled = true →
      env.cachedRank = none →
      env.rankFetch = .transportErr →
      startsWithJs event.message "!eloward" = false →
      (event.message == "!commands") = false →
      isUserEnforcementExempt event (replaceFirstStr event.target "#" "") = false →
      fetchUserRank RankFetchOutcome.transportErr = { hasRank := true, rankData := none } ∧
      handleMessage event onThisConn env =
        [Effect.rankFetch, Effect.rankCacheSet event.nick true none] ∧
      rankCacheTtlMs true = 60000 := by
  intro ev env cfg b hcc hen hcr hrf hm1 hm2 hex
  refine ⟨rfl, ?_, rfl⟩
  rcases env with ⟨cc, cf, cr, rf, me⟩
  simp only at hcc hcr hrf
  subst hcc hcr hrf
  simp [handleMessage, hm1, hm2, hex, hen, fetchUserRank,
    shouldTimeoutUser_failopen_record]

/-- Witness for `rank_transport_failure_fail_open` at a concrete event for user
`dan` in channel `carol` with a `min_rank` policy. -/
theorem rank_transport_failure_fail_open_witness :
    fetchUserRank RankFetchOutcome.transportErr = { hasRank := true, rankData := none } ∧
    handleMessage { nick := "dan", target := "#carol", message := "gl hf" } true
        { cachedConfig :=
            some { bot_enabled := true, enforcement_mode := some "min_rank",
                   min_rank_tier := some "GOLD", min_rank_division := some "IV" },
          configFetch := none, cachedRank := none,
          rankFetch := .transportErr, modEnv := {} } =
      [Effect.rankFetch, Effect.rankCacheSet "dan" true none] ∧
    rankCacheTtlMs true = 60000 :=
  rank_transport_failure_fail_open _ _ _ _ rfl rfl rfl rfl (by decide) (by decide)
    (by decide)

/-- C4 counterexample: with no reason template configured for the active
`has_rank` mode, `executeTimeout` does not abort — it posts the ban request,
carrying the hard-coded default reason string, contrary to the claim. -/
theorem missing_template_still_bans :
    executeTimeout "carol" "eve"
        { bot_enabled := true, enforcement_mode := none, timeout_seconds := some 45 }
        { nick := "eve", target := "#carol", message := "hello" }
        { userInfo := some { userId := "u1", broadcasterId := "b1", botUserId := "bot1" },
          helixSaysMod := false } =
      [Effect.banRequest "b1" "bot1" "u1" 45
        "Configuration error - please contact the streamer"] := by
  decide

/-- C4 (amended): when the channel policy has no reason template for the active
enforcement mode, `buildTimeoutReason` logs a configuration error and returns
the hard-coded default `'Configuration error - please contact the streamer'`;
the moderation action is not aborted — for a non-super-admin, non-exempt target
that passes the user-ID lookup and the Helix moderator recheck, the ban request
is still posted, with that default as its reason. -/
theorem missing_template_default_reason :
    ∀ (channelLogin userLogin : String) (config : ChannelConfig) (event : ChatEvent)
      (ids : TimeoutIds),
      strTruthy (if jsToLower (jsOrStr config.enforcement_mode "has_rank") == "min_rank"
                 then config.reason_min_rank else config.reason_has_rank) = false →
      buildTimeoutReason config userLogin =
        "Configuration error - please contact the streamer" ∧
      (isSuperAdmin userLogin = false →
        isUserEnforcementExempt event channelLogin = false →
        executeTimeout channelLogin userLogin config event
            { userInfo := some ids, helixSaysMod := false } =
          [Effect.banRequest ids.broadcasterId ids.botUserId ids.userId
            (jsOrInt config.timeout_seconds 30)
            "Configuration error - please contact the streamer"]) := by
  intro chan user cfg ev ids htpl
  have hreason : buildTimeoutReason cfg user =
      "Configuration error - please contact the streamer" := by
    simp only [buildTimeoutReason, htpl, Bool.not_false, if_true, reduceIte]
  refine ⟨hreason, ?_⟩
  intro hsa hex
  simp [executeTimeout, hsa, hex, hreason]

/-- Witness for `missing_template_default_reason`: a `min_rank`-mode policy whose
`reason_min_rank` column is absent, target `mallory` in channel `carol`. -/
theorem missing_template_default_reason_witness :
    buildTimeoutReason
        { bot_enabled := true, enforcement_mode := some "min_rank",
          min_rank_tier := some "GOLD", min_rank_division := some "IV",
          reason_has_rank := some "have a rank!" } "mallory" =
      "Configuration error - please contact the streamer" ∧
    (isSuperAdmin "mallory" = false →
      isUserEnforcementExempt { nick := "mallory", target := "#carol", message := "yo" }
          "carol" = false →
      executeTimeout "carol" "mallory"
          { bot_enabled := true, enforcement_mode := some "min_rank",
            min_rank_tier := some "GOLD", min_rank_division := some "IV",
            reason_has_rank := some "have a rank!" }
          { nick := "mallory", target := "#carol", message := "yo" }
          { userInfo := some { userId := "u9", broadcasterId := "b9", botUserId := "bot9" },
            helixSaysMod := false } =
        [Effect.banRequest "b9" "bot9" "u9" 30
          "Configuration error - please contact the streamer"]) :=
  missing_template_default_reason "carol" "mallory" _ _ _ (by decide)
